import Mathlib

/-!
Shallow embedding of `src/crypto/fips140-selftests.c`: the FIPS 140
known-answer self-test engine.  Byte buffers are `List Nat` (each entry one
byte), kernel error codes are negative `Int`s, and the external crypto
provider (tfm allocation, setkey, encrypt/decrypt/digest/generate) is passed
in as explicit function-valued structures.  Each family driver additionally
returns a trace of the provider interactions it performed, in order, so that
ordering properties ("validation happens before any size check", "no driver
after the first failure is invoked") can be stated about the embedding.
-/

namespace Fips140

/-- Kernel error code `EINVAL` (invalid argument). -/
def EINVAL : Int := 22

/-- Kernel error code `EBADMSG` (bad message / integrity check failure). -/
def EBADMSG : Int := 74

/-- Kernel error code `ENOMEM` (out of memory). -/
def ENOMEM : Int := 12

/-- `CRYPTO_ALG_ASYNC` flag bit from the kernel crypto API (`linux/crypto.h`). -/
def CRYPTO_ALG_ASYNC : Nat := 0x80

/-- `MAX_CIPHER_BLOCKSIZE` from `crypto/algapi.h`. -/
def MAX_CIPHER_BLOCKSIZE : Nat := 16

/-- `MAX_IV_SIZE` defined in `fips140-selftests.c` line 141. -/
def MAX_IV_SIZE : Nat := 16

/-- `HASH_MAX_DIGESTSIZE` from `crypto/hash.h`. -/
def HASH_MAX_DIGESTSIZE : Nat := 64

/-- `AES_BLOCK_SIZE` from `crypto/aes.h`. -/
def AES_BLOCK_SIZE : Nat := 16

/-- `SHA256_DIGEST_SIZE` from `crypto/sha.h`. -/
def SHA256_DIGEST_SIZE : Nat := 32

/-- The fault injection of `fips_check_result`: `result[0] ^= 0xff`
(line 151), flipping every bit of the first byte of the buffer. -/
def corrupt : List Nat → List Nat
  | [] => []
  | b :: rest => (b ^^^ 0xff) :: rest

/-- Outcome of one `fips_check_result` call: the returned error code, the
buffer contents after the call (the fault injection mutates the buffer), and
the `pr_err` diagnostic `(algorithm, operation)` emitted on mismatch. -/
structure CheckResult where
  err : Int
  result : List Nat
  diag : Option (String × String)
  deriving Repr, DecidableEq

/-- `fips_check_result` (lines 143-158).  `broken_alg` models the global
`fips140_broken_alg` setting: `none` when unset or when
`CONFIG_CRYPTO_FIPS140_MOD_ERROR_INJECTION` is compiled out.  If it names
this test's algorithm, one byte of `result` is corrupted first; then the
first `result_size` bytes of `result` and `expected_result` are compared
(`memcmp`), yielding `0` on equality and `-EBADMSG` with a diagnostic
otherwise. -/
def fips_check_result (alg : String) (result expected_result : List Nat)
    (result_size : Nat) (operation : String) (broken_alg : Option String) :
    CheckResult :=
  let result := match broken_alg with
    | some b => if alg = b then corrupt result else result
    | none => result
  if result.take result_size = expected_result.take result_size then
    ⟨0, result, none⟩
  else
    ⟨-EBADMSG, result, some (alg, operation)⟩

/-- `fips_validate_alg` (lines 168-177): reject any implementation whose
`cra_flags` carry `CRYPTO_ALG_ASYNC`. -/
def fips_validate_alg (cra_flags : Nat) : Int :=
  if cra_flags &&& CRYPTO_ALG_ASYNC ≠ 0 then -EINVAL else 0

/-- One provider interaction performed by a driver, recorded in order. -/
inductive Call where
  /-- `crypto_alloc_*` for the named algorithm. -/
  | alloc (alg : String)
  /-- `fips_validate_alg` on the allocated instance's `cra_flags`. -/
  | validate
  /-- a structural size query on the instance (`crypto_*_blocksize`,
  `crypto_*_ivsize`, `crypto_*_digestsize`). -/
  | sizeQuery
  /-- `crypto_*_setkey`. -/
  | setkey (key : List Nat) (key_size : Nat)
  /-- `crypto_aead_setauthsize`. -/
  | setauthsize (n : Nat)
  /-- a forward transform (`*_encrypt`). -/
  | encryptOp
  /-- an inverse transform (`*_decrypt`). -/
  | decryptOp
  /-- a digest computation (`crypto_shash_tfm_digest`). -/
  | digestOp (message : List Nat) (message_size : Nat)
  /-- `aes_expandkey` (library API). -/
  | libExpandKey (key : List Nat) (key_size : Nat)
  /-- `aes_encrypt` (library API). -/
  | libEncrypt
  /-- `aes_decrypt` (library API). -/
  | libDecrypt
  /-- `sha256` (library API). -/
  | libSha256 (message : List Nat) (message_size : Nat)
  /-- `crypto_drbg_reset_test` with personalization and test entropy. -/
  | reseed (pers : List Nat) (entropy : List Nat)
  /-- `crypto_drbg_get_bytes_addtl[_test]` with additional data, optional
  fresh test entropy, and requested output length. -/
  | generate (addtl : List Nat) (entropy : Option (List Nat)) (out_size : Nat)
  /-- a `fips_check_result` comparison, labelled by its operation string. -/
  | check (operation : String)
  deriving Repr, DecidableEq

/-- Result of one embedded driver invocation: the returned error code, the
working buffer contents at exit, and the ordered trace of interactions. -/
structure Run where
  err : Int
  buf : List Nat
  trace : List Call
  deriving Repr, DecidableEq

/-! ### Test vectors (`struct *_testvec`, lines 64-122) -/

/-- `struct blockcipher_testvec`. -/
structure blockcipher_testvec where
  key : List Nat
  key_size : Nat
  plaintext : List Nat
  ciphertext : List Nat
  block_size : Nat

/-- `struct aead_testvec`. -/
structure aead_testvec where
  key : List Nat
  key_size : Nat
  iv : List Nat
  iv_size : Nat
  assoc : List Nat
  assoc_size : Nat
  plaintext : List Nat
  plaintext_size : Nat
  ciphertext : List Nat
  ciphertext_size : Nat

/-- `struct skcipher_testvec`. -/
structure skcipher_testvec where
  key : List Nat
  key_size : Nat
  iv : List Nat
  iv_size : Nat
  plaintext : List Nat
  ciphertext : List Nat
  message_size : Nat

/-- `struct hash_testvec`; `key = none` models a null `key` pointer. -/
structure hash_testvec where
  key : Option (List Nat)
  key_size : Nat
  message : List Nat
  message_size : Nat
  digest : List Nat
  digest_size : Nat

/-- `struct drbg_testvec`. -/
structure drbg_testvec where
  entropy : List Nat
  entropy_size : Nat
  pers : List Nat
  pers_size : Nat
  entpr_a : List Nat
  entpr_b : List Nat
  entpr_size : Nat
  add_a : List Nat
  add_b : List Nat
  add_size : Nat
  output : List Nat
  out_size : Nat

/-! ### Provider instances (the external crypto API, per family) -/

/-- A `crypto_cipher` instance: metadata plus the provider's single-block
transforms.  `setkey` returns an error code; the transforms map a block's
bytes to the transformed block's bytes. -/
structure CipherTfm where
  cra_flags : Nat
  blocksize : Nat
  setkey : List Nat → Nat → Int
  encrypt_one : List Nat → List Nat
  decrypt_one : List Nat → List Nat

/-- `fips_test_blockcipher` (lines 180-227).  `alloc` is the outcome of
`crypto_alloc_cipher` (`Except.error e` models `IS_ERR`). -/
def fips_test_blockcipher (alg : String) (vec : blockcipher_testvec)
    (alloc : Except Int CipherTfm) (broken_alg : Option String) : Run :=
  if vec.block_size > MAX_CIPHER_BLOCKSIZE then ⟨-EINVAL, [], []⟩
  else match alloc with
  | .error e => ⟨e, [], [.alloc alg]⟩
  | .ok tfm =>
    let errv := fips_validate_alg tfm.cra_flags
    if errv ≠ 0 then ⟨errv, [], [.alloc alg, .validate]⟩
    else if tfm.blocksize ≠ vec.block_size then
      ⟨-EINVAL, [], [.alloc alg, .validate, .sizeQuery]⟩
    else
      let errk := tfm.setkey vec.key vec.key_size
      if errk ≠ 0 then
        ⟨errk, [], [.alloc alg, .validate, .sizeQuery,
                    .setkey vec.key vec.key_size]⟩
      else
        let block := vec.plaintext.take vec.block_size
        let block := tfm.encrypt_one block
        let c1 := fips_check_result alg block vec.ciphertext vec.block_size
          "encryption" broken_alg
        if c1.err ≠ 0 then
          ⟨c1.err, c1.result,
           [.alloc alg, .validate, .sizeQuery, .setkey vec.key vec.key_size,
            .encryptOp, .check "encryption"]⟩
        else
          let block := tfm.decrypt_one c1.result
          let c2 := fips_check_result alg block vec.plaintext vec.block_size
            "decryption" broken_alg
          ⟨c2.err, c2.result,
           [.alloc alg, .validate, .sizeQuery, .setkey vec.key vec.key_size,
            .encryptOp, .check "encryption", .decryptOp, .check "decryption"]⟩

/-- The AES library API (`crypto/aes.h`): `aes_expandkey` returns an error
code; `aes_encrypt`/`aes_decrypt` transform one 16-byte block using the key
schedule expanded from the vector's key. -/
structure AesLib where
  expandkey : List Nat → Nat → Int
  encrypt : List Nat → List Nat
  decrypt : List Nat → List Nat

/-- `fips_test_aes` (lines 236-264): run `fips_test_blockcipher`, then repeat
the single-block encrypt/decrypt through the independent library code path. -/
def fips_test_aes (alg : String) (vec : blockcipher_testvec)
    (alloc : Except Int CipherTfm) (lib : AesLib)
    (broken_alg : Option String) : Run :=
  if vec.block_size ≠ AES_BLOCK_SIZE then ⟨-EINVAL, [], []⟩
  else
    let r := fips_test_blockcipher alg vec alloc broken_alg
    if r.err ≠ 0 then r
    else
      let erre := lib.expandkey vec.key vec.key_size
      if erre ≠ 0 then
        ⟨erre, r.buf, r.trace ++ [.libExpandKey vec.key vec.key_size]⟩
      else
        let block := lib.encrypt (vec.plaintext.take AES_BLOCK_SIZE)
        let c1 := fips_check_result alg block vec.ciphertext AES_BLOCK_SIZE
          "encryption (library API)" broken_alg
        if c1.err ≠ 0 then
          ⟨c1.err, c1.result,
           r.trace ++ [.libExpandKey vec.key vec.key_size, .libEncrypt,
                       .check "encryption (library API)"]⟩
        else
          let block := lib.decrypt c1.result
          let c2 := fips_check_result alg block vec.plaintext AES_BLOCK_SIZE
            "decryption (library API)" broken_alg
          ⟨c2.err, c2.result,
           r.trace ++ [.libExpandKey vec.key vec.key_size, .libEncrypt,
                       .check "encryption (library API)", .libDecrypt,
                       .check "decryption (library API)"]⟩

/-- A `crypto_skcipher` instance.  `encrypt`/`decrypt` take the IV and the
message buffer and return the provider's error code together with the
transformed buffer. -/
structure SkcipherTfm where
  cra_flags : Nat
  ivsize : Nat
  setkey : List Nat → Nat → Int
  encrypt : List Nat → List Nat → Int × List Nat
  decrypt : List Nat → List Nat → Int × List Nat

/-- `fips_test_skcipher` (lines 267-340).  `mem_ok` models the success of
`skcipher_request_alloc`/`kmemdup` (line 298). -/
def fips_test_skcipher (alg : String) (vec : skcipher_testvec)
    (alloc : Except Int SkcipherTfm) (mem_ok : Bool)
    (broken_alg : Option String) : Run :=
  if vec.iv_size > MAX_IV_SIZE then ⟨-EINVAL, [], []⟩
  else match alloc with
  | .error e => ⟨e, [], [.alloc alg]⟩
  | .ok tfm =>
    let errv := fips_validate_alg tfm.cra_flags
    if errv ≠ 0 then ⟨errv, [], [.alloc alg, .validate]⟩
    else if tfm.ivsize ≠ vec.iv_size then
      ⟨-EINVAL, [], [.alloc alg, .validate, .sizeQuery]⟩
    else if ¬mem_ok then
      ⟨-ENOMEM, [], [.alloc alg, .validate, .sizeQuery]⟩
    else
      let message := vec.plaintext.take vec.message_size
      let errk := tfm.setkey vec.key vec.key_size
      if errk ≠ 0 then
        ⟨errk, message, [.alloc alg, .validate, .sizeQuery,
                         .setkey vec.key vec.key_size]⟩
      else
        let iv := vec.iv.take vec.iv_size
        let enc := tfm.encrypt iv message
        if enc.1 ≠ 0 then
          ⟨enc.1, enc.2, [.alloc alg, .validate, .sizeQuery,
                          .setkey vec.key vec.key_size, .encryptOp]⟩
        else
          let c1 := fips_check_result alg enc.2 vec.ciphertext
            vec.message_size "encryption" broken_alg
          if c1.err ≠ 0 then
            ⟨c1.err, c1.result,
             [.alloc alg, .validate, .sizeQuery,
              .setkey vec.key vec.key_size, .encryptOp, .check "encryption"]⟩
          else
            let dec := tfm.decrypt iv c1.result
            if dec.1 ≠ 0 then
              ⟨dec.1, dec.2,
               [.alloc alg, .validate, .sizeQuery,
                .setkey vec.key vec.key_size, .encryptOp,
                .check "encryption", .decryptOp]⟩
            else
              let c2 := fips_check_result alg dec.2 vec.plaintext
                vec.message_size "decryption" broken_alg
              ⟨c2.err, c2.result,
               [.alloc alg, .validate, .sizeQuery,
                .setkey vec.key vec.key_size, .encryptOp,
                .check "encryption", .decryptOp, .check "decryption"]⟩

/-- A `crypto_aead` instance.  `encrypt`/`decrypt` receive the configured
authentication tag size, the associated data, the IV, the `cryptlen`, and
the message buffer, returning the provider's error code and the transformed
buffer. -/
structure AeadTfm where
  cra_flags : Nat
  ivsize : Nat
  setkey : List Nat → Nat → Int
  setauthsize : Nat → Int
  encrypt : Nat → List Nat → List Nat → Nat → List Nat → Int × List Nat
  decrypt : Nat → List Nat → List Nat → Nat → List Nat → Int × List Nat

/-- `fips_test_aead` (lines 343-442).  The tag size is
`ciphertext_size - plaintext_size` (line 347); the scratch `message` buffer
is the plaintext zero-padded to `ciphertext_size` (lines 379-384).
`mem_ok` models the success of `aead_request_alloc`/`kmemdup`/`kzalloc`. -/
def fips_test_aead (alg : String) (vec : aead_testvec)
    (alloc : Except Int AeadTfm) (mem_ok : Bool)
    (broken_alg : Option String) : Run :=
  let tag_size := vec.ciphertext_size - vec.plaintext_size
  if vec.iv_size > MAX_IV_SIZE then ⟨-EINVAL, [], []⟩
  else if vec.ciphertext_size ≤ vec.plaintext_size then ⟨-EINVAL, [], []⟩
  else match alloc with
  | .error e => ⟨e, [], [.alloc alg]⟩
  | .ok tfm =>
    let errv := fips_validate_alg tfm.cra_flags
    if errv ≠ 0 then ⟨errv, [], [.alloc alg, .validate]⟩
    else if tfm.ivsize ≠ vec.iv_size then
      ⟨-EINVAL, [], [.alloc alg, .validate, .sizeQuery]⟩
    else if ¬mem_ok then
      ⟨-ENOMEM, [], [.alloc alg, .validate, .sizeQuery]⟩
    else
      let assoc := vec.assoc.take vec.assoc_size
      let message := vec.plaintext.take vec.plaintext_size ++
        List.replicate (vec.ciphertext_size - vec.plaintext_size) 0
      let errk := tfm.setkey vec.key vec.key_size
      if errk ≠ 0 then
        ⟨errk, message, [.alloc alg, .validate, .sizeQuery,
                         .setkey vec.key vec.key_size]⟩
      else
        let erra := tfm.setauthsize tag_size
        if erra ≠ 0 then
          ⟨erra, message,
           [.alloc alg, .validate, .sizeQuery, .setkey vec.key vec.key_size,
            .setauthsize tag_size]⟩
        else
          let iv := vec.iv.take vec.iv_size
          let enc := tfm.encrypt tag_size assoc iv vec.plaintext_size message
          if enc.1 ≠ 0 then
            ⟨enc.1, enc.2,
             [.alloc alg, .validate, .sizeQuery,
              .setkey vec.key vec.key_size, .setauthsize tag_size,
              .encryptOp]⟩
          else
            let c1 := fips_check_result alg enc.2 vec.ciphertext
              vec.ciphertext_size "encryption" broken_alg
            if c1.err ≠ 0 then
              ⟨c1.err, c1.result,
               [.alloc alg, .validate, .sizeQuery,
                .setkey vec.key vec.key_size, .setauthsize tag_size,
                .encryptOp, .check "encryption"]⟩
            else
              let dec := tfm.decrypt tag_size assoc iv vec.ciphertext_size
                c1.result
              if dec.1 ≠ 0 then
                ⟨dec.1, dec.2,
                 [.alloc alg, .validate, .sizeQuery,
                  .setkey vec.key vec.key_size, .setauthsize tag_size,
                  .encryptOp, .check "encryption", .decryptOp]⟩
              else
                let c2 := fips_check_result alg dec.2 vec.plaintext
                  vec.plaintext_size "decryption" broken_alg
                ⟨c2.err, c2.result,
                 [.alloc alg, .validate, .sizeQuery,
                  .setkey vec.key vec.key_size, .setauthsize tag_size,
                  .encryptOp, .check "encryption", .decryptOp,
                  .check "decryption"]⟩

/-- A `crypto_shash` instance.  `digest` maps the message and its length to
the provider's error code and the digest bytes. -/
structure ShashTfm where
  cra_flags : Nat
  digestsize : Nat
  setkey : List Nat → Nat → Int
  digest : List Nat → Nat → Int × List Nat

/-- `fips_test_hash` (lines 451-496).  The key is set only when the vector
declares one (`if (vec->key)`, line 477). -/
def fips_test_hash (alg : String) (vec : hash_testvec)
    (alloc : Except Int ShashTfm) (broken_alg : Option String) : Run :=
  if vec.digest_size > HASH_MAX_DIGESTSIZE then ⟨-EINVAL, [], []⟩
  else match alloc with
  | .error e => ⟨e, [], [.alloc alg]⟩
  | .ok tfm =>
    let errv := fips_validate_alg tfm.cra_flags
    if errv ≠ 0 then ⟨errv, [], [.alloc alg, .validate]⟩
    else if tfm.digestsize ≠ vec.digest_size then
      ⟨-EINVAL, [], [.alloc alg, .validate, .sizeQuery]⟩
    else
      let keytrace := match vec.key with
        | some k => [Call.setkey k vec.key_size]
        | none => []
      let errk := match vec.key with
        | some k => tfm.setkey k vec.key_size
        | none => 0
      if errk ≠ 0 then
        ⟨errk, [], [.alloc alg, .validate, .sizeQuery] ++ keytrace⟩
      else
        let dg := tfm.digest vec.message vec.message_size
        if dg.1 ≠ 0 then
          ⟨dg.1, dg.2, [.alloc alg, .validate, .sizeQuery] ++ keytrace ++
            [.digestOp vec.message vec.message_size]⟩
        else
          let c1 := fips_check_result alg dg.2 vec.digest vec.digest_size
            "digest" broken_alg
          ⟨c1.err, c1.result,
           [.alloc alg, .validate, .sizeQuery] ++ keytrace ++
             [.digestOp vec.message vec.message_size, .check "digest"]⟩

/-- `fips_test_sha256_library` (lines 502-514).  `sha256lib` is the
`sha256()` library function, mapping the message and its length to the
32-byte digest. -/
def fips_test_sha256_library (alg : String) (vec : hash_testvec)
    (sha256lib : List Nat → Nat → List Nat)
    (broken_alg : Option String) : Run :=
  if vec.digest_size ≠ SHA256_DIGEST_SIZE then ⟨-EINVAL, [], []⟩
  else
    let digest := sha256lib vec.message vec.message_size
    let c1 := fips_check_result alg digest vec.digest vec.digest_size
      "digest (library API)" broken_alg
    ⟨c1.err, c1.result,
     [.libSha256 vec.message vec.message_size, .check "digest (library API)"]⟩

/-- A `crypto_rng` DRBG instance with internal state `σ`.  `reseed` is
`crypto_drbg_reset_test` (personalization, test entropy) and yields the
freshly seeded state; `generate` is `crypto_drbg_get_bytes_addtl[_test]`
(state, additional data, optional fresh test entropy, output length),
yielding the error code, the generated bytes, and the advanced state. -/
structure RngTfm (σ : Type) where
  cra_flags : Nat
  reseed : List Nat → List Nat → Int × σ
  generate : σ → List Nat → Option (List Nat) → Nat → Int × List Nat × σ

/-- `fips_test_drbg` (lines 517-604).  Seeds with the vector's entropy and
personalization string, generates twice (first with `add_a`, then with
`add_b`, each with its own fresh entropy when `entpr_size ≠ 0`), and
compares the output buffer — overwritten by the second call — against the
vector's expected output.  `mem_ok` models the `kzalloc` of the output
buffer. -/
def fips_test_drbg {σ : Type} (alg : String) (vec : drbg_testvec)
    (alloc : Except Int (RngTfm σ)) (mem_ok : Bool)
    (broken_alg : Option String) : Run :=
  match alloc with
  | .error e => ⟨e, [], [.alloc alg]⟩
  | .ok tfm =>
    let errv := fips_validate_alg tfm.cra_flags
    if errv ≠ 0 then ⟨errv, [], [.alloc alg, .validate]⟩
    else if ¬mem_ok then ⟨-ENOMEM, [], [.alloc alg, .validate]⟩
    else
      let pers := vec.pers.take vec.pers_size
      let entropy := vec.entropy.take vec.entropy_size
      let rs := tfm.reseed pers entropy
      if rs.1 ≠ 0 then
        ⟨rs.1, [], [.alloc alg, .validate, .reseed pers entropy]⟩
      else
        let addtl_a := vec.add_a.take vec.add_size
        let ent_a := if vec.entpr_size ≠ 0 then
          some (vec.entpr_a.take vec.entpr_size) else none
        let g1 := tfm.generate rs.2 addtl_a ent_a vec.out_size
        if g1.1 ≠ 0 then
          ⟨g1.1, g1.2.1,
           [.alloc alg, .validate, .reseed pers entropy,
            .generate addtl_a ent_a vec.out_size]⟩
        else
          let addtl_b := vec.add_b.take vec.add_size
          let ent_b := if vec.entpr_size ≠ 0 then
            some (vec.entpr_b.take vec.entpr_size) else none
          let g2 := tfm.generate g1.2.2 addtl_b ent_b vec.out_size
          if g2.1 ≠ 0 then
            ⟨g2.1, g2.2.1,
             [.alloc alg, .validate, .reseed pers entropy,
              .generate addtl_a ent_a vec.out_size,
              .generate addtl_b ent_b vec.out_size]⟩
          else
            let c1 := fips_check_result alg g2.2.1 vec.output vec.out_size
              "get_bytes" broken_alg
            ⟨c1.err, c1.result,
             [.alloc alg, .validate, .reseed pers entropy,
              .generate addtl_a ent_a vec.out_size,
              .generate addtl_b ent_b vec.out_size, .check "get_bytes"]⟩

/-! ### Registry and orchestrator -/

/-- One entry of the `fips140_selftests[]` registry (lines 610-846): the
algorithm name bound to its driver invocation on its test vector (the
thunk is the bound call `test->func(test)`). -/
structure fips_test where
  alg : String
  run : Unit → Int

/-- `fips140_run_selftests` (lines 848-867), instrumented: iterate the
registry in order, invoking each entry's driver; return `false` on the
first nonzero error, `true` if all succeed.  The second component lists
the algorithms whose drivers were invoked, in order. -/
def fips140_run_selftests : List fips_test → Bool × List String
  | [] => (true, [])
  | t :: rest =>
    if t.run () ≠ 0 then (false, [t.alg])
    else
      let r := fips140_run_selftests rest
      (r.1, t.alg :: r.2)

/-! ### Helper lemmas -/

lemma neg_EINVAL_ne_zero : (-EINVAL : Int) ≠ 0 := by decide

lemma neg_EBADMSG_ne_zero : (-EBADMSG : Int) ≠ 0 := by decide

lemma EINVAL_ne_zero : (EINVAL : Int) ≠ 0 := by decide

lemma EBADMSG_ne_zero : (EBADMSG : Int) ≠ 0 := by decide

lemma ENOMEM_ne_zero : (ENOMEM : Int) ≠ 0 := by decide

lemma xor_ff_ne (x : Nat) : x ^^^ 0xff ≠ x := by
  intro h
  have h2 : x ^^^ (x ^^^ 0xff) = x ^^^ x := by rw [h]
  rw [← Nat.xor_assoc, Nat.xor_self, Nat.zero_xor] at h2
  exact absurd h2 (by decide)

lemma corrupt_take_ne (r : List Nat) (n : Nat) (hn : 0 < n) (hr : r ≠ []) :
    (corrupt r).take n ≠ r.take n := by
  cases r with
  | nil => exact absurd rfl hr
  | cons a t =>
    cases n with
    | zero => exact absurd hn (by decide)
    | succ m =>
      simp only [corrupt, List.take_succ_cons, ne_eq, List.cons.injEq,
        not_and]
      intro h
      exact absurd h (xor_ff_ne a)

/-- When the fault-injection setting names a different algorithm (or is
unset), `fips_check_result` behaves exactly as with no injection. -/
lemma fips_check_result_other (alg b : String) (h : alg ≠ b)
    (r e : List Nat) (n : Nat) (op : String) :
    fips_check_result alg r e n op (some b) =
      fips_check_result alg r e n op none := by
  simp only [fips_check_result, if_neg h]

/-- When the fault-injection setting names this algorithm and the
uncorrupted comparison would have passed over at least one byte, the
comparator fails with `-EBADMSG`. -/
lemma fips_check_result_broken (alg : String) (r e : List Nat) (n : Nat)
    (op : String) (hn : 0 < n) (hlen : n ≤ r.length)
    (hpass : r.take n = e.take n) :
    fips_check_result alg r e n op (some alg) = ⟨-EBADMSG, corrupt r, some (alg, op)⟩ := by
  have hr : r ≠ [] := by
    intro h
    rw [h] at hlen
    simp at hlen
    omega
  have hne : (corrupt r).take n ≠ e.take n := by
    rw [← hpass]
    exact corrupt_take_ne r n hn hr
  simp [fips_check_result, hne]

/-! ### Claims -/

/-- **C10**: for `result_size = 0`, `fips_check_result` succeeds on every
pair of buffers, for every fault-injection setting (including one naming
this test's algorithm): `memcmp` over zero bytes never mismatches. -/
theorem claim_C10 (alg : String) (result expected : List Nat)
    (op : String) (broken : Option String) :
    (fips_check_result alg result expected 0 op broken).err = 0 := by
  cases broken with
  | none => simp [fips_check_result]
  | some b => simp [fips_check_result]

/-- **C2**: when fault injection does not apply (the setting is unset or
names another algorithm), `fips_check_result` returns `0` iff the first
`result_size` bytes of `result` equal those of `expected_result`, and
returns `-EBADMSG` carrying the `(algorithm, operation)` diagnostic iff
they differ.  The length hypotheses say the buffers really hold
`result_size` bytes, as `memcmp`'s callers guarantee. -/
theorem claim_C2 (alg : String) (result expected : List Nat) (n : Nat)
    (op : String) (broken : Option String)
    (hlen1 : n ≤ result.length) (hlen2 : n ≤ expected.length)
    (hb : broken = none ∨ ∃ b, broken = some b ∧ alg ≠ b) :
    ((fips_check_result alg result expected n op broken).err = 0 ↔
      result.take n = expected.take n) ∧
    ((fips_check_result alg result expected n op broken).err = -EBADMSG ∧
      (fips_check_result alg result expected n op broken).diag =
        some (alg, op) ↔
      result.take n ≠ expected.take n) := by
  have hred : fips_check_result alg result expected n op broken =
      fips_check_result alg result expected n op none := by
    rcases hb with h | ⟨b, hb, hne⟩
    · rw [h]
    · rw [hb]
      exact fips_check_result_other alg b hne result expected n op
  rw [hred]
  by_cases h : result.take n = expected.take n
  · simp [fips_check_result, h]
  · simp only [fips_check_result, if_neg h]
    refine ⟨⟨fun h0 => absurd h0 (by decide), fun heq => absurd heq h⟩, ?_⟩
    simp [h]

/-- `claim_C2` applied at a concrete comparison: equal two-byte buffers
pass, and buffers differing in the second byte fail with the
diagnostic. -/
theorem claim_C2_witness :
    ((fips_check_result "sha256" [1, 2] [1, 2] 2 "digest" none).err = 0 ↔
      ([1, 2] : List Nat).take 2 = ([1, 2] : List Nat).take 2) ∧
    ((fips_check_result "sha256" [1, 2] [1, 2] 2 "digest" none).err =
        -EBADMSG ∧
      (fips_check_result "sha256" [1, 2] [1, 2] 2 "digest" none).diag =
        some ("sha256", "digest") ↔
      ([1, 2] : List Nat).take 2 ≠ ([1, 2] : List Nat).take 2) :=
  claim_C2 "sha256" [1, 2] [1, 2] 2 "digest" none (by decide) (by decide)
    (Or.inl rfl)

/-- **C3**: when the fault-injection setting names this test's algorithm,
the comparator corrupts one byte of the actual result before comparing, so
a comparison that would otherwise pass (over at least one byte) fails with
`-EBADMSG`; consequently a hash self-test whose provider produces the
expected digest returns `-EBADMSG` when fault injection targets its
algorithm. -/
theorem claim_C3 (alg : String) (result expected : List Nat) (n : Nat)
    (op : String) (vec : hash_testvec) (tfm : ShashTfm)
    (hn : 0 < n) (hlen : n ≤ result.length)
    (hpass : result.take n = expected.take n)
    (hbound : vec.digest_size ≤ HASH_MAX_DIGESTSIZE)
    (hflags : tfm.cra_flags &&& CRYPTO_ALG_ASYNC = 0)
    (hsize : tfm.digestsize = vec.digest_size)
    (hkey : (match vec.key with
             | some k => tfm.setkey k vec.key_size
             | none => 0) = 0)
    (hdig : (tfm.digest vec.message vec.message_size).1 = 0)
    (hdn : 0 < vec.digest_size)
    (hdlen : vec.digest_size ≤
      (tfm.digest vec.message vec.message_size).2.length)
    (hdpass : (tfm.digest vec.message vec.message_size).2.take
        vec.digest_size = vec.digest.take vec.digest_size) :
    (fips_check_result alg result expected n op (some alg)).err =
      -EBADMSG ∧
    (fips_test_hash alg vec (.ok tfm) (some alg)).err = -EBADMSG := by
  constructor
  · rw [fips_check_result_broken alg result expected n op hn hlen hpass]
  · have hc := fips_check_result_broken alg
      (tfm.digest vec.message vec.message_size).2 vec.digest
      vec.digest_size "digest" hdn hdlen hdpass
    simp [fips_test_hash, fips_validate_alg, hflags, hsize, hkey, hdig,
      Nat.not_lt.mpr hbound, hc]

/-- Concrete hash vector used to exercise `claim_C3`: keyless, with a
one-byte digest. -/
def hashVecW : hash_testvec := ⟨none, 0, [], 0, [5], 1⟩

/-- Concrete synchronous hash instance whose digest matches `hashVecW`. -/
def shashTfmW : ShashTfm := ⟨0, 1, fun _ _ => 0, fun _ _ => (0, [5])⟩

/-- `claim_C3` applied at a concrete input: fault injection on `"aes"`
makes both a passing comparison and a passing hash self-test fail. -/
theorem claim_C3_witness :
    (fips_check_result "aes" [1] [1] 1 "encryption" (some "aes")).err =
      -EBADMSG ∧
    (fips_test_hash "aes" hashVecW (.ok shashTfmW) (some "aes")).err =
      -EBADMSG :=
  claim_C3 "aes" [1] [1] 1 "encryption" hashVecW shashTfmW (by decide)
    (by decide) (by decide) (by decide) (by decide) (by decide) (by decide)
    (by decide) (by decide) (by decide) (by decide)

/-- **C5**: `fips_validate_alg` returns `0` for flags without
`CRYPTO_ALG_ASYNC` and `-EINVAL` for flags carrying it, and every driver
that allocates a provider instance validates it immediately after
allocation: an async instance makes the driver return `-EINVAL` with a
trace consisting of exactly the allocation and the validation — before any
size check or cryptographic operation. -/
theorem claim_C5 (alg : String) (flags : Nat)
    (bvec : blockcipher_testvec) (btfm : CipherTfm)
    (svec : skcipher_testvec) (stfm : SkcipherTfm)
    (avec : aead_testvec) (atfm : AeadTfm)
    (hvec : hash_testvec) (htfm : ShashTfm)
    (dvec : drbg_testvec) (σ : Type) (rtfm : RngTfm σ)
    (smem amem rmem : Bool) (broken : Option String)
    (hflag0 : flags &&& CRYPTO_ALG_ASYNC = 0)
    (hbb : bvec.block_size ≤ MAX_CIPHER_BLOCKSIZE)
    (hsb : svec.iv_size ≤ MAX_IV_SIZE)
    (hab : avec.iv_size ≤ MAX_IV_SIZE)
    (hacp : avec.plaintext_size < avec.ciphertext_size)
    (hhb : hvec.digest_size ≤ HASH_MAX_DIGESTSIZE)
    (hb : btfm.cra_flags &&& CRYPTO_ALG_ASYNC ≠ 0)
    (hs : stfm.cra_flags &&& CRYPTO_ALG_ASYNC ≠ 0)
    (ha : atfm.cra_flags &&& CRYPTO_ALG_ASYNC ≠ 0)
    (hh : htfm.cra_flags &&& CRYPTO_ALG_ASYNC ≠ 0)
    (hr : rtfm.cra_flags &&& CRYPTO_ALG_ASYNC ≠ 0) :
    fips_validate_alg flags = 0 ∧
    fips_validate_alg btfm.cra_flags = -EINVAL ∧
    fips_test_blockcipher alg bvec (.ok btfm) broken =
      ⟨-EINVAL, [], [.alloc alg, .validate]⟩ ∧
    fips_test_skcipher alg svec (.ok stfm) smem broken =
      ⟨-EINVAL, [], [.alloc alg, .validate]⟩ ∧
    fips_test_aead alg avec (.ok atfm) amem broken =
      ⟨-EINVAL, [], [.alloc alg, .validate]⟩ ∧
    fips_test_hash alg hvec (.ok htfm) broken =
      ⟨-EINVAL, [], [.alloc alg, .validate]⟩ ∧
    fips_test_drbg alg dvec (.ok rtfm) rmem broken =
      ⟨-EINVAL, [], [.alloc alg, .validate]⟩ := by
  refine ⟨?_, ?_, ?_, ?_, ?_, ?_, ?_⟩
  · simp [fips_validate_alg, hflag0]
  · simp [fips_validate_alg, hb]
  · simp [fips_test_blockcipher, fips_validate_alg, hb,
      Nat.not_lt.mpr hbb, neg_EINVAL_ne_zero, EINVAL_ne_zero]
  · simp [fips_test_skcipher, fips_validate_alg, hs,
      Nat.not_lt.mpr hsb, neg_EINVAL_ne_zero, EINVAL_ne_zero]
  · simp [fips_test_aead, fips_validate_alg, ha, Nat.not_lt.mpr hab,
      Nat.not_le.mpr hacp, neg_EINVAL_ne_zero, EINVAL_ne_zero]
  · simp [fips_test_hash, fips_validate_alg, hh,
      Nat.not_lt.mpr hhb, neg_EINVAL_ne_zero, EINVAL_ne_zero]
  · simp [fips_test_drbg, fips_validate_alg, hr, neg_EINVAL_ne_zero, EINVAL_ne_zero]

/-- **C6**: in each driver that queries a structural size (block size for
the block cipher, IV size for skcipher and AEAD, digest size for hash), an
allocated instance reporting a size different from the vector's declared
size makes the driver return `-EINVAL`, with a trace stopping at the size
query — before any forward cryptographic operation. -/
theorem claim_C6 (alg : String)
    (bvec : blockcipher_testvec) (btfm : CipherTfm)
    (svec : skcipher_testvec) (stfm : SkcipherTfm)
    (avec : aead_testvec) (atfm : AeadTfm)
    (hvec : hash_testvec) (htfm : ShashTfm)
    (smem amem : Bool) (broken : Option String)
    (hbb : bvec.block_size ≤ MAX_CIPHER_BLOCKSIZE)
    (hsb : svec.iv_size ≤ MAX_IV_SIZE)
    (hab : avec.iv_size ≤ MAX_IV_SIZE)
    (hacp : avec.plaintext_size < avec.ciphertext_size)
    (hhb : hvec.digest_size ≤ HASH_MAX_DIGESTSIZE)
    (hbf : btfm.cra_flags &&& CRYPTO_ALG_ASYNC = 0)
    (hsf : stfm.cra_flags &&& CRYPTO_ALG_ASYNC = 0)
    (haf : atfm.cra_flags &&& CRYPTO_ALG_ASYNC = 0)
    (hhf : htfm.cra_flags &&& CRYPTO_ALG_ASYNC = 0)
    (hbs : btfm.blocksize ≠ bvec.block_size)
    (hss : stfm.ivsize ≠ svec.iv_size)
    (has : atfm.ivsize ≠ avec.iv_size)
    (hhs : htfm.digestsize ≠ hvec.digest_size) :
    fips_test_blockcipher alg bvec (.ok btfm) broken =
      ⟨-EINVAL, [], [.alloc alg, .validate, .sizeQuery]⟩ ∧
    fips_test_skcipher alg svec (.ok stfm) smem broken =
      ⟨-EINVAL, [], [.alloc alg, .validate, .sizeQuery]⟩ ∧
    fips_test_aead alg avec (.ok atfm) amem broken =
      ⟨-EINVAL, [], [.alloc alg, .validate, .sizeQuery]⟩ ∧
    fips_test_hash alg hvec (.ok htfm) broken =
      ⟨-EINVAL, [], [.alloc alg, .validate, .sizeQuery]⟩ := by
  refine ⟨?_, ?_, ?_, ?_⟩
  · simp [fips_test_blockcipher, fips_validate_alg, hbf, hbs,
      Nat.not_lt.mpr hbb]
  · simp [fips_test_skcipher, fips_validate_alg, hsf, hss,
      Nat.not_lt.mpr hsb]
  · simp [fips_test_aead, fips_validate_alg, haf, has,
      Nat.not_lt.mpr hab, Nat.not_le.mpr hacp]
  · simp [fips_test_hash, fips_validate_alg, hhf, hhs,
      Nat.not_lt.mpr hhb]

/-- **C9**: every driver with a fixed-size local buffer checks the
corresponding vector size bound before any interaction with the provider
(block size against `MAX_CIPHER_BLOCKSIZE`, AES block size against
`AES_BLOCK_SIZE`, IV size against `MAX_IV_SIZE = 16`, digest size against
`HASH_MAX_DIGESTSIZE` resp. `SHA256_DIGEST_SIZE`), returning `-EINVAL` with
an empty trace when the bound is exceeded. -/
theorem claim_C9 (alg : String)
    (bvec b2vec : blockcipher_testvec)
    (balloc b2alloc : Except Int CipherTfm) (lib : AesLib)
    (svec : skcipher_testvec) (salloc : Except Int SkcipherTfm)
    (avec : aead_testvec) (aalloc : Except Int AeadTfm)
    (hvec h2vec : hash_testvec) (halloc : Except Int ShashTfm)
    (shalib : List Nat → Nat → List Nat)
    (smem amem : Bool) (broken : Option String)
    (hbb : MAX_CIPHER_BLOCKSIZE < bvec.block_size)
    (hb2 : AES_BLOCK_SIZE < b2vec.block_size)
    (hsb : MAX_IV_SIZE < svec.iv_size)
    (hab : MAX_IV_SIZE < avec.iv_size)
    (hhb : HASH_MAX_DIGESTSIZE < hvec.digest_size)
    (hh2 : SHA256_DIGEST_SIZE < h2vec.digest_size) :
    fips_test_blockcipher alg bvec balloc broken = ⟨-EINVAL, [], []⟩ ∧
    fips_test_aes alg b2vec b2alloc lib broken = ⟨-EINVAL, [], []⟩ ∧
    fips_test_skcipher alg svec salloc smem broken = ⟨-EINVAL, [], []⟩ ∧
    fips_test_aead alg avec aalloc amem broken = ⟨-EINVAL, [], []⟩ ∧
    fips_test_hash alg hvec halloc broken = ⟨-EINVAL, [], []⟩ ∧
    fips_test_sha256_library alg h2vec shalib broken =
      ⟨-EINVAL, [], []⟩ := by
  refine ⟨?_, ?_, ?_, ?_, ?_, ?_⟩
  · simp [fips_test_blockcipher, hbb]
  · simp [fips_test_aes, ne_of_gt hb2]
  · simp [fips_test_skcipher, hsb]
  · simp [fips_test_aead, hab]
  · simp [fips_test_hash, hhb]
  · simp [fips_test_sha256_library, ne_of_gt hh2]

/-! ### Concrete fixtures for witnesses -/

/-- A well-formed block cipher vector with 16-byte blocks. -/
def bvecW : blockcipher_testvec :=
  ⟨List.replicate 16 1, 16, List.replicate 16 2, List.replicate 16 3, 16⟩

/-- A well-formed (degenerate) skcipher vector. -/
def svecW : skcipher_testvec := ⟨[], 0, [], 0, [], [], 0⟩

/-- A well-formed (degenerate) AEAD vector with a one-byte tag. -/
def avecW : aead_testvec := ⟨[], 0, [], 0, [], 0, [], 0, [9], 1⟩

/-- A well-formed (degenerate) DRBG vector. -/
def dvecW : drbg_testvec := ⟨[], 0, [], 0, [], [], 0, [], [], 0, [], 0⟩

/-- An async `crypto_cipher` instance. -/
def cipherTfmAsync : CipherTfm := ⟨CRYPTO_ALG_ASYNC, 16, fun _ _ => 0, id, id⟩

/-- An async `crypto_skcipher` instance. -/
def skcipherTfmAsync : SkcipherTfm :=
  ⟨CRYPTO_ALG_ASYNC, 0, fun _ _ => 0, fun _ m => (0, m), fun _ m => (0, m)⟩

/-- An async `crypto_aead` instance. -/
def aeadTfmAsync : AeadTfm :=
  ⟨CRYPTO_ALG_ASYNC, 0, fun _ _ => 0, fun _ => 0,
   fun _ _ _ _ m => (0, m), fun _ _ _ _ m => (0, m)⟩

/-- An async `crypto_shash` instance. -/
def shashTfmAsync : ShashTfm :=
  ⟨CRYPTO_ALG_ASYNC, 1, fun _ _ => 0, fun _ _ => (0, [])⟩

/-- An async `crypto_rng` instance. -/
def rngTfmAsync : RngTfm Nat :=
  ⟨CRYPTO_ALG_ASYNC, fun _ _ => (0, 0), fun s _ _ _ => (0, [], s)⟩

/-- `claim_C5` applied at concrete async instances: each driver rejects
them right after allocation. -/
theorem claim_C5_witness :
    fips_validate_alg 0 = 0 ∧
    fips_validate_alg cipherTfmAsync.cra_flags = -EINVAL ∧
    fips_test_blockcipher "aes" bvecW (.ok cipherTfmAsync) none =
      ⟨-EINVAL, [], [.alloc "aes", .validate]⟩ ∧
    fips_test_skcipher "cbc(aes)" svecW (.ok skcipherTfmAsync) true none =
      ⟨-EINVAL, [], [.alloc "cbc(aes)", .validate]⟩ ∧
    fips_test_aead "gcm(aes)" avecW (.ok aeadTfmAsync) true none =
      ⟨-EINVAL, [], [.alloc "gcm(aes)", .validate]⟩ ∧
    fips_test_hash "sha1" hashVecW (.ok shashTfmAsync) none =
      ⟨-EINVAL, [], [.alloc "sha1", .validate]⟩ ∧
    fips_test_drbg "stdrng" dvecW (.ok rngTfmAsync) true none =
      ⟨-EINVAL, [], [.alloc "stdrng", .validate]⟩ := by
  have h := claim_C5 "aes" 0 bvecW cipherTfmAsync svecW skcipherTfmAsync
    avecW aeadTfmAsync hashVecW shashTfmAsync dvecW Nat rngTfmAsync
    true true true none (by decide) (by decide) (by decide) (by decide)
    (by decide) (by decide) (by decide) (by decide) (by decide) (by decide)
    (by decide)
  exact ⟨h.1, h.2.1, h.2.2.1,
    (claim_C5 "cbc(aes)" 0 bvecW cipherTfmAsync svecW skcipherTfmAsync
      avecW aeadTfmAsync hashVecW shashTfmAsync dvecW Nat rngTfmAsync
      true true true none (by decide) (by decide) (by decide) (by decide)
      (by decide) (by decide) (by decide) (by decide) (by decide)
      (by decide) (by decide)).2.2.2.1,
    (claim_C5 "gcm(aes)" 0 bvecW cipherTfmAsync svecW skcipherTfmAsync
      avecW aeadTfmAsync hashVecW shashTfmAsync dvecW Nat rngTfmAsync
      true true true none (by decide) (by decide) (by decide) (by decide)
      (by decide) (by decide) (by decide) (by decide) (by decide)
      (by decide) (by decide)).2.2.2.2.1,
    (claim_C5 "sha1" 0 bvecW cipherTfmAsync svecW skcipherTfmAsync
      avecW aeadTfmAsync hashVecW shashTfmAsync dvecW Nat rngTfmAsync
      true true true none (by decide) (by decide) (by decide) (by decide)
      (by decide) (by decide) (by decide) (by decide) (by decide)
      (by decide) (by decide)).2.2.2.2.2.1,
    (claim_C5 "stdrng" 0 bvecW cipherTfmAsync svecW skcipherTfmAsync
      avecW aeadTfmAsync hashVecW shashTfmAsync dvecW Nat rngTfmAsync
      true true true none (by decide) (by decide) (by decide) (by decide)
      (by decide) (by decide) (by decide) (by decide) (by decide)
      (by decide) (by decide)).2.2.2.2.2.2⟩

/-- A synchronous `crypto_cipher` instance reporting the wrong block
size for `bvecW`. -/
def cipherTfmBadSize : CipherTfm := ⟨0, 1, fun _ _ => 0, id, id⟩

/-- A synchronous `crypto_skcipher` instance reporting the wrong IV size
for `svecW`. -/
def skcipherTfmBadSize : SkcipherTfm :=
  ⟨0, 5, fun _ _ => 0, fun _ m => (0, m), fun _ m => (0, m)⟩

/-- A synchronous `crypto_aead` instance reporting the wrong IV size for
`avecW`. -/
def aeadTfmBadSize : AeadTfm :=
  ⟨0, 5, fun _ _ => 0, fun _ => 0,
   fun _ _ _ _ m => (0, m), fun _ _ _ _ m => (0, m)⟩

/-- A synchronous `crypto_shash` instance reporting the wrong digest size
for `hashVecW`. -/
def shashTfmBadSize : ShashTfm := ⟨0, 7, fun _ _ => 0, fun _ _ => (0, [])⟩

/-- `claim_C6` applied at concrete instances with mismatched sizes: every
driver stops at the size query with `-EINVAL`. -/
theorem claim_C6_witness :
    fips_test_blockcipher "aes" bvecW (.ok cipherTfmBadSize) none =
      ⟨-EINVAL, [], [.alloc "aes", .validate, .sizeQuery]⟩ ∧
    fips_test_skcipher "cbc(aes)" svecW (.ok skcipherTfmBadSize) true none =
      ⟨-EINVAL, [], [.alloc "cbc(aes)", .validate, .sizeQuery]⟩ ∧
    fips_test_aead "gcm(aes)" avecW (.ok aeadTfmBadSize) true none =
      ⟨-EINVAL, [], [.alloc "gcm(aes)", .validate, .sizeQuery]⟩ ∧
    fips_test_hash "sha1" hashVecW (.ok shashTfmBadSize) none =
      ⟨-EINVAL, [], [.alloc "sha1", .validate, .sizeQuery]⟩ := by
  have h := claim_C6 "aes" bvecW cipherTfmBadSize svecW skcipherTfmBadSize
    avecW aeadTfmBadSize hashVecW shashTfmBadSize true true none
    (by decide) (by decide) (by decide) (by decide) (by decide) (by decide)
    (by decide) (by decide) (by decide) (by decide) (by decide) (by decide)
    (by decide)
  exact ⟨h.1,
    (claim_C6 "cbc(aes)" bvecW cipherTfmBadSize svecW skcipherTfmBadSize
      avecW aeadTfmBadSize hashVecW shashTfmBadSize true true none
      (by decide) (by decide) (by decide) (by decide) (by decide)
      (by decide) (by decide) (by decide) (by decide) (by decide)
      (by decide) (by decide) (by decide)).2.1,
    (claim_C6 "gcm(aes)" bvecW cipherTfmBadSize svecW skcipherTfmBadSize
      avecW aeadTfmBadSize hashVecW shashTfmBadSize true true none
      (by decide) (by decide) (by decide) (by decide) (by decide)
      (by decide) (by decide) (by decide) (by decide) (by decide)
      (by decide) (by decide) (by decide)).2.2.1,
    (claim_C6 "sha1" bvecW cipherTfmBadSize svecW skcipherTfmBadSize
      avecW aeadTfmBadSize hashVecW shashTfmBadSize true true none
      (by decide) (by decide) (by decide) (by decide) (by decide)
      (by decide) (by decide) (by decide) (by decide) (by decide)
      (by decide) (by decide) (by decide)).2.2.2⟩

/-- A block cipher vector whose block size exceeds
`MAX_CIPHER_BLOCKSIZE`. -/
def bvecBig : blockcipher_testvec := ⟨[], 0, [], [], 17⟩

/-- An skcipher vector whose IV size exceeds `MAX_IV_SIZE`. -/
def svecBig : skcipher_testvec := ⟨[], 0, [], 17, [], [], 0⟩

/-- An AEAD vector whose IV size exceeds `MAX_IV_SIZE`. -/
def avecBig : aead_testvec := ⟨[], 0, [], 17, [], 0, [], 0, [9], 1⟩

/-- A hash vector whose digest size exceeds `HASH_MAX_DIGESTSIZE`. -/
def hvecBig : hash_testvec := ⟨none, 0, [], 0, [], 65⟩

/-- A hash vector whose digest size exceeds `SHA256_DIGEST_SIZE`. -/
def hvecBig32 : hash_testvec := ⟨none, 0, [], 0, [], 33⟩

/-- The identity AES library stub. -/
def aesLibW : AesLib := ⟨fun _ _ => 0, id, id⟩

/-- `claim_C9` applied at concrete oversized vectors: every driver rejects
them with `-EINVAL` and an empty trace. -/
theorem claim_C9_witness :
    fips_test_blockcipher "aes" bvecBig (.error (-2)) none =
      ⟨-EINVAL, [], []⟩ ∧
    fips_test_aes "aes" bvecBig (.error (-2)) aesLibW none =
      ⟨-EINVAL, [], []⟩ ∧
    fips_test_skcipher "cbc(aes)" svecBig (.error (-2)) true none =
      ⟨-EINVAL, [], []⟩ ∧
    fips_test_aead "gcm(aes)" avecBig (.error (-2)) true none =
      ⟨-EINVAL, [], []⟩ ∧
    fips_test_hash "sha1" hvecBig (.error (-2)) none =
      ⟨-EINVAL, [], []⟩ ∧
    fips_test_sha256_library "sha256" hvecBig32 (fun _ _ => []) none =
      ⟨-EINVAL, [], []⟩ := by
  have h := claim_C9 "aes" bvecBig bvecBig (.error (-2)) (.error (-2))
    aesLibW svecBig (.error (-2)) avecBig (.error (-2)) hvecBig hvecBig32
    (.error (-2)) (fun _ _ => []) true true none (by decide) (by decide)
    (by decide) (by decide) (by decide) (by decide)
  exact ⟨h.1, h.2.1,
    (claim_C9 "cbc(aes)" bvecBig bvecBig (.error (-2)) (.error (-2))
      aesLibW svecBig (.error (-2)) avecBig (.error (-2)) hvecBig hvecBig32
      (.error (-2)) (fun _ _ => []) true true none (by decide) (by decide)
      (by decide) (by decide) (by decide) (by decide)).2.2.1,
    (claim_C9 "gcm(aes)" bvecBig bvecBig (.error (-2)) (.error (-2))
      aesLibW svecBig (.error (-2)) avecBig (.error (-2)) hvecBig hvecBig32
      (.error (-2)) (fun _ _ => []) true true none (by decide) (by decide)
      (by decide) (by decide) (by decide) (by decide)).2.2.2.1,
    (claim_C9 "sha1" bvecBig bvecBig (.error (-2)) (.error (-2))
      aesLibW svecBig (.error (-2)) avecBig (.error (-2)) hvecBig hvecBig32
      (.error (-2)) (fun _ _ => []) true true none (by decide) (by decide)
      (by decide) (by decide) (by decide) (by decide)).2.2.2.2.1,
    (claim_C9 "sha256" bvecBig bvecBig (.error (-2)) (.error (-2))
      aesLibW svecBig (.error (-2)) avecBig (.error (-2)) hvecBig hvecBig32
      (.error (-2)) (fun _ _ => []) true true none (by decide) (by decide)
      (by decide) (by decide) (by decide) (by decide)).2.2.2.2.2⟩

/-- **C7**: in the AEAD driver, for a vector with
`ciphertext_size > plaintext_size` (and the earlier checks passing), the
authentication tag size `ciphertext_size - plaintext_size` is configured
on the instance as the fifth provider interaction — before any encryption
or decryption; and a vector with `ciphertext_size ≤ plaintext_size` makes
the driver return `-EINVAL` with an empty trace, before allocating the
instance. -/
theorem claim_C7 (alg : String) (avec : aead_testvec) (atfm : AeadTfm)
    (alloc2 : Except Int AeadTfm) (mem : Bool) (broken : Option String)
    (hiv : avec.iv_size ≤ MAX_IV_SIZE)
    (hflags : atfm.cra_flags &&& CRYPTO_ALG_ASYNC = 0)
    (hsize : atfm.ivsize = avec.iv_size)
    (hkey : atfm.setkey avec.key avec.key_size = 0) :
    (avec.plaintext_size < avec.ciphertext_size →
      (fips_test_aead alg avec (.ok atfm) true broken).trace.take 5 =
        [.alloc alg, .validate, .sizeQuery,
         .setkey avec.key avec.key_size,
         .setauthsize (avec.ciphertext_size - avec.plaintext_size)] ∧
      Call.encryptOp ∉
        (fips_test_aead alg avec (.ok atfm) true broken).trace.take 5 ∧
      Call.decryptOp ∉
        (fips_test_aead alg avec (.ok atfm) true broken).trace.take 5) ∧
    (avec.ciphertext_size ≤ avec.plaintext_size →
      fips_test_aead alg avec alloc2 mem broken = ⟨-EINVAL, [], []⟩) := by
  constructor
  · intro hcp
    have hv : fips_validate_alg atfm.cra_flags = 0 := by
      simp [fips_validate_alg, hflags]
    have h5 : (fips_test_aead alg avec (.ok atfm) true broken).trace.take 5 =
        [.alloc alg, .validate, .sizeQuery,
         .setkey avec.key avec.key_size,
         .setauthsize (avec.ciphertext_size - avec.plaintext_size)] := by
      unfold fips_test_aead
      dsimp only
      rw [if_neg (Nat.not_lt.mpr hiv), if_neg (Nat.not_le.mpr hcp), hv,
        if_neg (by decide : ¬((0 : Int) ≠ 0)),
        if_neg (by simp [hsize] : ¬(atfm.ivsize ≠ avec.iv_size)),
        if_neg (by simp : ¬¬(true = true)), hkey,
        if_neg (by decide : ¬((0 : Int) ≠ 0))]
      repeat' split
      all_goals rfl
    refine ⟨h5, ?_, ?_⟩ <;> rw [h5] <;> simp
  · intro hle
    by_cases hiv2 : avec.iv_size > MAX_IV_SIZE
    · simp [fips_test_aead, hiv2]
    · simp [fips_test_aead, hiv2, hle]

/-- A synchronous `crypto_aead` instance matching `avecW`'s IV size. -/
def aeadTfmW : AeadTfm :=
  ⟨0, 0, fun _ _ => 0, fun _ => 0,
   fun _ _ _ _ m => (0, m), fun _ _ _ _ m => (0, m)⟩

/-- An AEAD vector with `ciphertext_size ≤ plaintext_size` (no room for a
tag). -/
def avecBad : aead_testvec := ⟨[], 0, [], 0, [], 0, [], 0, [], 0⟩

/-- `claim_C7` applied at a concrete AEAD run: the tag size `1` derived from
`avecW` is configured fifth, before any transform, and the tagless
`avecBad` is rejected with an empty trace. -/
theorem claim_C7_witness :
    ((fips_test_aead "gcm(aes)" avecW (.ok aeadTfmW) true none).trace.take 5 =
      [.alloc "gcm(aes)", .validate, .sizeQuery, .setkey [] 0,
       .setauthsize 1] ∧
     Call.encryptOp ∉
       (fips_test_aead "gcm(aes)" avecW (.ok aeadTfmW) true none).trace.take 5 ∧
     Call.decryptOp ∉
       (fips_test_aead "gcm(aes)" avecW (.ok aeadTfmW) true none).trace.take 5) ∧
    fips_test_aead "gcm(aes)" avecBad (.error (-2)) false none =
      ⟨-EINVAL, [], []⟩ :=
  ⟨(claim_C7 "gcm(aes)" avecW aeadTfmW (.error (-2)) false none (by decide)
      (by decide) (by decide) (by decide)).1 (by decide),
   (claim_C7 "gcm(aes)" avecBad aeadTfmW (.error (-2)) false none
      (by decide) (by decide) (by decide) (by decide)).2 (by decide)⟩

/-- **C8**: the DRBG driver seeds the instance with the vector's entropy
and personalization string, then performs exactly two generate calls — the
first with `add_a`, the second with `add_b`, each with its own fresh
entropy (`entpr_a`, `entpr_b`) when `entpr_size ≠ 0` — and compares only
the second call's `out_size` bytes against the vector's expected output;
a failing reseed or generate call is returned immediately, with no
comparison in the trace. -/
theorem claim_C8 (alg : String) (vec : drbg_testvec) (σ : Type)
    (tfm : RngTfm σ) (broken : Option String)
    (hflags : tfm.cra_flags &&& CRYPTO_ALG_ASYNC = 0) :
    ((tfm.reseed (vec.pers.take vec.pers_size)
        (vec.entropy.take vec.entropy_size)).1 ≠ 0 →
      fips_test_drbg alg vec (.ok tfm) true broken =
        ⟨(tfm.reseed (vec.pers.take vec.pers_size)
            (vec.entropy.take vec.entropy_size)).1, [],
         [.alloc alg, .validate,
          .reseed (vec.pers.take vec.pers_size)
            (vec.entropy.take vec.entropy_size)]⟩) ∧
    ((tfm.reseed (vec.pers.take vec.pers_size)
        (vec.entropy.take vec.entropy_size)).1 = 0 →
      (tfm.generate (tfm.reseed (vec.pers.take vec.pers_size)
          (vec.entropy.take vec.entropy_size)).2
        (vec.add_a.take vec.add_size)
        (if vec.entpr_size = 0 then none
          else some (vec.entpr_a.take vec.entpr_size))
        vec.out_size).1 ≠ 0 →
      fips_test_drbg alg vec (.ok tfm) true broken =
        ⟨(tfm.generate (tfm.reseed (vec.pers.take vec.pers_size)
              (vec.entropy.take vec.entropy_size)).2
            (vec.add_a.take vec.add_size)
            (if vec.entpr_size = 0 then none
          else some (vec.entpr_a.take vec.entpr_size))
            vec.out_size).1,
         (tfm.generate (tfm.reseed (vec.pers.take vec.pers_size)
              (vec.entropy.take vec.entropy_size)).2
            (vec.add_a.take vec.add_size)
            (if vec.entpr_size = 0 then none
          else some (vec.entpr_a.take vec.entpr_size))
            vec.out_size).2.1,
         [.alloc alg, .validate,
          .reseed (vec.pers.take vec.pers_size)
            (vec.entropy.take vec.entropy_size),
          .generate (vec.add_a.take vec.add_size)
            (if vec.entpr_size = 0 then none
          else some (vec.entpr_a.take vec.entpr_size))
            vec.out_size]⟩) ∧
    ((tfm.reseed (vec.pers.take vec.pers_size)
        (vec.entropy.take vec.entropy_size)).1 = 0 →
      (tfm.generate (tfm.reseed (vec.pers.take vec.pers_size)
          (vec.entropy.take vec.entropy_size)).2
        (vec.add_a.take vec.add_size)
        (if vec.entpr_size = 0 then none
          else some (vec.entpr_a.take vec.entpr_size))
        vec.out_size).1 = 0 →
      (tfm.generate (tfm.generate (tfm.reseed (vec.pers.take vec.pers_size)
            (vec.entropy.take vec.entropy_size)).2
          (vec.add_a.take vec.add_size)
          (if vec.entpr_size = 0 then none
          else some (vec.entpr_a.take vec.entpr_size))
          vec.out_size).2.2
        (vec.add_b.take vec.add_size)
        (if vec.entpr_size = 0 then none
          else some (vec.entpr_b.take vec.entpr_size))
        vec.out_size).1 = 0 →
      fips_test_drbg alg vec (.ok tfm) true broken =
        ⟨(fips_check_result alg
            (tfm.generate (tfm.generate
                (tfm.reseed (vec.pers.take vec.pers_size)
                  (vec.entropy.take vec.entropy_size)).2
                (vec.add_a.take vec.add_size)
                (if vec.entpr_size = 0 then none
          else some (vec.entpr_a.take vec.entpr_size))
                vec.out_size).2.2
              (vec.add_b.take vec.add_size)
              (if vec.entpr_size = 0 then none
          else some (vec.entpr_b.take vec.entpr_size))
              vec.out_size).2.1
            vec.output vec.out_size "get_bytes" broken).err,
         (fips_check_result alg
            (tfm.generate (tfm.generate
                (tfm.reseed (vec.pers.take vec.pers_size)
                  (vec.entropy.take vec.entropy_size)).2
                (vec.add_a.take vec.add_size)
                (if vec.entpr_size = 0 then none
          else some (vec.entpr_a.take vec.entpr_size))
                vec.out_size).2.2
              (vec.add_b.take vec.add_size)
              (if vec.entpr_size = 0 then none
          else some (vec.entpr_b.take vec.entpr_size))
              vec.out_size).2.1
            vec.output vec.out_size "get_bytes" broken).result,
         [.alloc alg, .validate,
          .reseed (vec.pers.take vec.pers_size)
            (vec.entropy.take vec.entropy_size),
          .generate (vec.add_a.take vec.add_size)
            (if vec.entpr_size = 0 then none
          else some (vec.entpr_a.take vec.entpr_size))
            vec.out_size,
          .generate (vec.add_b.take vec.add_size)
            (if vec.entpr_size = 0 then none
          else some (vec.entpr_b.take vec.entpr_size))
            vec.out_size,
          .check "get_bytes"]⟩) ∧
    ((tfm.reseed (vec.pers.take vec.pers_size)
        (vec.entropy.take vec.entropy_size)).1 = 0 →
      (tfm.generate (tfm.reseed (vec.pers.take vec.pers_size)
          (vec.entropy.take vec.entropy_size)).2
        (vec.add_a.take vec.add_size)
        (if vec.entpr_size = 0 then none
          else some (vec.entpr_a.take vec.entpr_size))
        vec.out_size).1 = 0 →
      (tfm.generate (tfm.generate (tfm.reseed (vec.pers.take vec.pers_size)
            (vec.entropy.take vec.entropy_size)).2
          (vec.add_a.take vec.add_size)
          (if vec.entpr_size = 0 then none
          else some (vec.entpr_a.take vec.entpr_size))
          vec.out_size).2.2
        (vec.add_b.take vec.add_size)
        (if vec.entpr_size = 0 then none
          else some (vec.entpr_b.take vec.entpr_size))
        vec.out_size).1 ≠ 0 →
      fips_test_drbg alg vec (.ok tfm) true broken =
        ⟨(tfm.generate (tfm.generate
              (tfm.reseed (vec.pers.take vec.pers_size)
                (vec.entropy.take vec.entropy_size)).2
              (vec.add_a.take vec.add_size)
              (if vec.entpr_size = 0 then none
          else some (vec.entpr_a.take vec.entpr_size))
              vec.out_size).2.2
            (vec.add_b.take vec.add_size)
            (if vec.entpr_size = 0 then none
          else some (vec.entpr_b.take vec.entpr_size))
            vec.out_size).1,
         (tfm.generate (tfm.generate
              (tfm.reseed (vec.pers.take vec.pers_size)
                (vec.entropy.take vec.entropy_size)).2
              (vec.add_a.take vec.add_size)
              (if vec.entpr_size = 0 then none
          else some (vec.entpr_a.take vec.entpr_size))
              vec.out_size).2.2
            (vec.add_b.take vec.add_size)
            (if vec.entpr_size = 0 then none
          else some (vec.entpr_b.take vec.entpr_size))
            vec.out_size).2.1,
         [.alloc alg, .validate,
          .reseed (vec.pers.take vec.pers_size)
            (vec.entropy.take vec.entropy_size),
          .generate (vec.add_a.take vec.add_size)
            (if vec.entpr_size = 0 then none
          else some (vec.entpr_a.take vec.entpr_size))
            vec.out_size,
          .generate (vec.add_b.take vec.add_size)
            (if vec.entpr_size = 0 then none
          else some (vec.entpr_b.take vec.entpr_size))
            vec.out_size]⟩) := by
  refine ⟨?_, ?_, ?_, ?_⟩
  · intro h1
    simp [fips_test_drbg, fips_validate_alg, hflags, h1]
  · intro h1 h2
    simp [fips_test_drbg, fips_validate_alg, hflags, h1, h2]
  · intro h1 h2 h3
    simp [fips_test_drbg, fips_validate_alg, hflags, h1, h2, h3]
  · intro h1 h2 h3
    simp [fips_test_drbg, fips_validate_alg, hflags, h1, h2, h3]

/-- A synchronous DRBG instance whose test-mode reseed fails with `-5`. -/
def rngTfmFail : RngTfm Nat := ⟨0, fun _ _ => (-5, 0), fun s _ _ _ => (0, [], s)⟩

/-- A synchronous DRBG instance that reseeds and generates successfully. -/
def rngTfmW : RngTfm Nat :=
  ⟨0, fun _ _ => (0, 0), fun s _ _ n => (0, List.replicate n 7, s + 1)⟩

/-- `claim_C8` applied at concrete DRBG instances: a failing reseed is
returned immediately with no generate or comparison in the trace, and a
successful two-generate run ends with the single `get_bytes`
comparison. -/
theorem claim_C8_witness :
    fips_test_drbg "stdrng" dvecW (.ok rngTfmFail) true none =
      ⟨-5, [], [.alloc "stdrng", .validate, .reseed [] []]⟩ ∧
    fips_test_drbg "stdrng" dvecW (.ok rngTfmW) true none =
      ⟨0, [], [.alloc "stdrng", .validate, .reseed [] [],
               .generate [] none 0, .generate [] none 0,
               .check "get_bytes"]⟩ :=
  ⟨(claim_C8 "stdrng" dvecW Nat rngTfmFail none (by decide)).1 (by decide),
   (claim_C8 "stdrng" dvecW Nat rngTfmW none (by decide)).2.2.1
     (by decide) (by decide) (by decide)⟩

/-- **C4**: fault injection configured for a different algorithm is
unobservable: with `fips140_broken_alg = some b` and `alg ≠ b`, the
comparator and every embedded driver produce outputs (error code, buffer
bytes, trace) identical to a run with no fault injection configured. -/
theorem claim_C4 (alg b : String) (r e : List Nat) (n : Nat) (op : String)
    (bvec b2vec : blockcipher_testvec)
    (balloc b2alloc : Except Int CipherTfm) (lib : AesLib)
    (svec : skcipher_testvec) (salloc : Except Int SkcipherTfm)
    (avec : aead_testvec) (aalloc : Except Int AeadTfm)
    (hvec h2vec : hash_testvec) (halloc : Except Int ShashTfm)
    (shalib : List Nat → Nat → List Nat)
    (dvec : drbg_testvec) (σ : Type) (ralloc : Except Int (RngTfm σ))
    (smem amem rmem : Bool)
    (hne : alg ≠ b) :
    fips_check_result alg r e n op (some b) =
      fips_check_result alg r e n op none ∧
    fips_test_blockcipher alg bvec balloc (some b) =
      fips_test_blockcipher alg bvec balloc none ∧
    fips_test_aes alg b2vec b2alloc lib (some b) =
      fips_test_aes alg b2vec b2alloc lib none ∧
    fips_test_skcipher alg svec salloc smem (some b) =
      fips_test_skcipher alg svec salloc smem none ∧
    fips_test_aead alg avec aalloc amem (some b) =
      fips_test_aead alg avec aalloc amem none ∧
    fips_test_hash alg hvec halloc (some b) =
      fips_test_hash alg hvec halloc none ∧
    fips_test_sha256_library alg h2vec shalib (some b) =
      fips_test_sha256_library alg h2vec shalib none ∧
    fips_test_drbg alg dvec ralloc rmem (some b) =
      fips_test_drbg alg dvec ralloc rmem none := by
  have hc := fips_check_result_other alg b hne
  refine ⟨hc r e n op, ?_, ?_, ?_, ?_, ?_, ?_, ?_⟩
  · simp only [fips_test_blockcipher, hc]
  · simp only [fips_test_aes, fips_test_blockcipher, hc]
  · simp only [fips_test_skcipher, hc]
  · simp only [fips_test_aead, hc]
  · simp only [fips_test_hash, hc]
  · simp only [fips_test_sha256_library, hc]
  · simp only [fips_test_drbg, hc]

/-- `claim_C4` applied at concrete inputs: a run of the comparator and of
the block cipher driver for `"aes"` with fault injection configured for
`"sha1"` equals the corresponding run with no fault injection. -/
theorem claim_C4_witness :
    fips_check_result "aes" [3] [3] 1 "encryption" (some "sha1") =
      fips_check_result "aes" [3] [3] 1 "encryption" none ∧
    fips_test_blockcipher "aes" bvecW (.ok cipherTfmBadSize) (some "sha1") =
      fips_test_blockcipher "aes" bvecW (.ok cipherTfmBadSize) none ∧
    fips_test_aes "aes" bvecW (.ok cipherTfmBadSize) aesLibW (some "sha1") =
      fips_test_aes "aes" bvecW (.ok cipherTfmBadSize) aesLibW none ∧
    fips_test_skcipher "aes" svecW (.ok skcipherTfmBadSize) true
        (some "sha1") =
      fips_test_skcipher "aes" svecW (.ok skcipherTfmBadSize) true none ∧
    fips_test_aead "aes" avecW (.ok aeadTfmW) true (some "sha1") =
      fips_test_aead "aes" avecW (.ok aeadTfmW) true none ∧
    fips_test_hash "aes" hashVecW (.ok shashTfmW) (some "sha1") =
      fips_test_hash "aes" hashVecW (.ok shashTfmW) none ∧
    fips_test_sha256_library "aes" hashVecW (fun _ _ => []) (some "sha1") =
      fips_test_sha256_library "aes" hashVecW (fun _ _ => []) none ∧
    fips_test_drbg "aes" dvecW (.ok rngTfmW) true (some "sha1") =
      fips_test_drbg "aes" dvecW (.ok rngTfmW) true none :=
  claim_C4 "aes" "sha1" [3] [3] 1 "encryption" bvecW bvecW
    (.ok cipherTfmBadSize) (.ok cipherTfmBadSize) aesLibW svecW
    (.ok skcipherTfmBadSize) avecW (.ok aeadTfmW) hashVecW hashVecW
    (.ok shashTfmW) (fun _ _ => []) dvecW Nat (.ok rngTfmW) true true true
    (by decide)

/-- The orchestrator returns `true` exactly when every registered driver
returns success. -/
lemma run_selftests_true_iff (l : List fips_test) :
    (fips140_run_selftests l).1 = true ↔ ∀ u ∈ l, u.run () = 0 := by
  induction l with
  | nil => simp [fips140_run_selftests]
  | cons t rest ih =>
    by_cases h : t.run () = 0
    · simp [fips140_run_selftests, h, ih]
    · simp [fips140_run_selftests, h]

/-- When the driver at index `k` fails and all earlier drivers succeed,
the orchestrator returns `false` and its invocation trace is exactly the
first `k + 1` registry entries. -/
lemma run_selftests_stop (l : List fips_test) : ∀ (k : Nat) (t : fips_test),
    l.get? k = some t → t.run () ≠ 0 →
    (∀ j, j < k → ∀ tj, l.get? j = some tj → tj.run () = 0) →
    (fips140_run_selftests l).1 = false ∧
    (fips140_run_selftests l).2 = (l.take (k + 1)).map fips_test.alg := by
  induction l with
  | nil =>
    intro k t hk
    simp at hk
  | cons hd rest ih =>
    intro k t hk ht hprev
    cases k with
    | zero =>
      simp only [List.get?] at hk
      injection hk with hk
      subst hk
      simp [fips140_run_selftests, ht]
    | succ m =>
      have h0 : hd.run () = 0 := hprev 0 (Nat.succ_pos m) hd rfl
      have ihm := ih m t hk ht
        (fun j hj tj hjg => hprev (j + 1) (Nat.succ_lt_succ hj) tj hjg)
      simp [fips140_run_selftests, h0, ihm.1, ihm.2]

/-- **C1**: the orchestrator `fips140_run_selftests` returns `true` iff
every registered driver returns success, and when the driver at 0-based
index `k` (1-indexed position `k + 1`) fails while all earlier drivers
succeed, it returns `false` having invoked exactly the first `k + 1`
drivers — none after the failing one. -/
theorem claim_C1 (tests tests2 : List fips_test) (k : Nat) (t : fips_test)
    (hk : tests.get? k = some t) (ht : t.run () ≠ 0)
    (hprev : ∀ j, j < k → ∀ tj, tests.get? j = some tj → tj.run () = 0) :
    ((fips140_run_selftests tests2).1 = true ↔
      ∀ u ∈ tests2, u.run () = 0) ∧
    (fips140_run_selftests tests).1 = false ∧
    (fips140_run_selftests tests).2 =
      (tests.take (k + 1)).map fips_test.alg :=
  ⟨run_selftests_true_iff tests2, run_selftests_stop tests k t hk ht hprev⟩

/-- A registry entry whose driver succeeds. -/
def okT1 : fips_test := ⟨"aes", fun _ => 0⟩

/-- A registry entry whose driver fails with `-EBADMSG`. -/
def failT : fips_test := ⟨"cbc(aes)", fun _ => -EBADMSG⟩

/-- A registry entry, after the failing one, whose driver succeeds. -/
def okT2 : fips_test := ⟨"sha1", fun _ => 0⟩

/-- A three-entry registry whose second driver fails. -/
def testsW : List fips_test := [okT1, failT, okT2]

/-- `claim_C1` applied at the concrete registry `testsW`: the run returns
`false` and invokes exactly the first two drivers, never reaching
`"sha1"`. -/
theorem claim_C1_witness :
    (fips140_run_selftests testsW).1 = false ∧
    (fips140_run_selftests testsW).2 =
      (testsW.take 2).map fips_test.alg :=
  (claim_C1 testsW testsW 1 failT rfl (by decide)
    (by
      intro j hj tj hget
      have hj0 : j = 0 := by omega
      subst hj0
      simp only [testsW, List.get?] at hget
      injection hget with hget
      subst hget
      decide)).2

end Fips140
